import Mathlib

set_option linter.unusedVariables false

namespace Flowy

/-!
Shallow embedding of the flowy workflow-orchestration engine:

* `src/flowy/core/context.py`, `progress.py`, `task.py`, `flow.py`, `db.py`
  (execution context, progress API, task/flow wrappers, history store),
* `src/flowy/web/services/scheduler_service.py` (ad-hoc jobs, orphan
  detection, trigger reconciliation),
* `src/flowy/core/migration_manager.py` (migration batches).

Modelling conventions:

* `datetime.now()` is an integer clock stored in the database state; each
  call returns the clock value and increments it.
* A raised Python exception is a `PyExc` (class name plus message);
  `traceback.format_exc()` is modelled by `format_exc`.
* Each JSON document the engine writes into a history row is modelled by a
  `Payload` constructor mirroring the corresponding `json.dumps` call.
* The SQLAlchemy store always succeeds, so the `except` branches that merely
  swallow store failures are never taken; `.first()`-based updates are
  modelled by `updateFirst`, which rewrites only the first matching row.
* Autoincrement ids start at 1, matching SQLite row ids.
-/

/-- Structural split on a separator character (Python `str.split(sep)`). -/
def splitCharAux (sep : Char) : List Char → List Char → List String
  | [], acc => [String.mk acc.reverse]
  | c :: cs, acc =>
      if c = sep then String.mk acc.reverse :: splitCharAux sep cs []
      else splitCharAux sep cs (c :: acc)

/-- Python `str.split(sep)` over a whole string. -/
def splitChar (sep : Char) (s : String) : List String := splitCharAux sep s.data []

/-- Python `str.startswith`. -/
def py_startswith (s pre : String) : Bool := pre.data.isPrefixOf s.data

/-- Lexicographic code-point comparison on character lists. -/
def strLtAux : List Char → List Char → Bool
  | [], [] => false
  | [], _ :: _ => true
  | _ :: _, [] => false
  | c :: cs, d :: ds =>
      if c.toNat < d.toNat then true
      else if d.toNat < c.toNat then false
      else strLtAux cs ds

/-- Python string `<` (code-point lexicographic order). -/
def strLt (a b : String) : Bool := strLtAux a.data b.data

/-- Parse a decimal digit string (Python `int(s)` restricted to digits). -/
def digitsToNatAux : List Char → Nat → Option Nat
  | [], acc => some acc
  | c :: cs, acc =>
      if 48 ≤ c.toNat ∧ c.toNat ≤ 57 then
        digitsToNatAux cs (acc * 10 + (c.toNat - 48))
      else none

/-- Python `int(s)` on a nonempty digit string, `None` on anything else. -/
def py_int? (s : String) : Option Nat :=
  match s.data with
  | [] => none
  | l => digitsToNatAux l 0

/-- A raised Python exception: class name and message. -/
structure PyExc where
  kind : String
  msg : String
deriving Repr, DecidableEq

/-- A Python value handed to `set_progress`: either an `int` or a value of
some other type (rejected by the `isinstance(progress, int)` check). -/
inductive PyVal where
  | intVal (n : Int)
  | nonInt (tag : String)
deriving Repr, DecidableEq

/-- Model of `traceback.format_exc()` for the exception being handled. -/
def format_exc (e : PyExc) : String :=
  "Traceback (most recent call last): " ++ e.kind ++ ": " ++ e.msg

/-- The source error string `type(e).__name__ + ": " + str(e)`. -/
def excMsg (e : PyExc) : String := e.kind ++ ": " ++ e.msg

/-- Shapes of the JSON documents written into history rows, one constructor
per `json.dumps` call site in the source. -/
inductive Payload where
  /-- `json.dumps({'result': ...})` on success. -/
  | result (v : String)
  /-- `json.dumps({'error': ..., 'traceback': ...})` on a raised error. -/
  | errored (error : String) (tb : String)
  /-- Synthetic orphan payload for a lost pending row
  (`check_orphaned_jobs`, step 1). -/
  | orphanPending (detectedAt : Int)
  /-- Synthetic payload for a stuck running row
  (`check_orphaned_jobs`, step 2). -/
  | orphanRunning (detectedAt : Int)
  /-- `json.dumps({'error': error_msg})` in `update_flow_history_status`. -/
  | simpleError (msg : String)
  /-- `json.dumps(result)` written by `execute_immediate_flow`. -/
  | immediateResult (success : Bool) (res : Option String) (err : Option String)
deriving Repr, DecidableEq

/-- The flow metadata dictionary passed through `_metadata`
(`trigger provenance`); `flow_history_id` is the key the flow wrapper
reads to promote a pre-created row. -/
structure Meta where
  flow_history_id : Option Nat := none
  trigger_type : String := ""
deriving Repr, DecidableEq

/-- One `flow_history` row (`src/flowy/core/db.py`, class FlowHistory). -/
structure FlowHistoryRow where
  id : Nat
  flow_id : String
  flow_metadata : Option Meta := none
  created_at : Int
  start_time : Option Int := none
  end_time : Option Int := none
  input_data : Option String := none
  output_data : Option Payload := none
  status : String
deriving Repr, DecidableEq

/-- One `task_history` row (`src/flowy/core/db.py`, class TaskHistory). -/
structure TaskHistoryRow where
  id : Nat
  flow_history_id : Nat
  name : String
  created_at : Int
  start_time : Option Int := none
  end_time : Option Int := none
  input_data : Option String := none
  output_data : Option Payload := none
  status : String
  progress : Option Int := none
  progress_message : Option String := none
  progress_updated_at : Option Int := none
deriving Repr, DecidableEq

/-- The two `ContextVar`s: `flow_history_id_var` (`context.py`) and
`task_history_id_var` (`progress.py`), both defaulting to `None`. -/
structure Ctx where
  flow_history_id_var : Option Nat := none
  task_history_id_var : Option Nat := none
deriving Repr, DecidableEq

/-- The history store plus the ambient clock. -/
structure DB where
  flow_histories : List FlowHistoryRow := []
  task_histories : List TaskHistoryRow := []
  next_flow_history_id : Nat := 1
  next_task_history_id : Nat := 1
  clock : Int := 0
deriving Repr, DecidableEq

/-- `datetime.now()`: read the clock, then advance it. -/
def tick (db : DB) : Int × DB := (db.clock, { db with clock := db.clock + 1 })

/-- Update the first row matched by `p` (SQLAlchemy `.first()` semantics). -/
def updateFirst (p : α → Bool) (f : α → α) : List α → List α
  | [] => []
  | x :: xs => if p x then f x :: xs else x :: updateFirst p f xs

/-- Python truthiness of an optional integer id (`if flow_history_id:`):
`None` and `0` are falsy. -/
def pyTruthy : Option Nat → Bool
  | some n => n != 0
  | none => false

/-- `create_flow_history` (db.py): insert a new row, assign the next
autoincrement id. -/
def create_flow_history (db : DB) (flow_id : String) (created_at : Int)
    (start_time : Option Int) (input_data : Option String) (status : String)
    (flow_metadata : Option Meta) : Nat × DB :=
  let row : FlowHistoryRow :=
    { id := db.next_flow_history_id, flow_id := flow_id,
      flow_metadata := flow_metadata, created_at := created_at,
      start_time := start_time, input_data := input_data, status := status }
  (db.next_flow_history_id,
   { db with flow_histories := db.flow_histories ++ [row],
             next_flow_history_id := db.next_flow_history_id + 1 })

/-- `update_flow_history` (db.py): set only the fields that are not `None`,
on the first row with the given id. -/
def update_flow_history (db : DB) (history_id : Nat) (end_time : Option Int)
    (output_data : Option Payload) (status : Option String) : DB :=
  let upd := fun (r : FlowHistoryRow) =>
    { r with
      end_time := (match end_time with | some t => some t | none => r.end_time),
      output_data := (match output_data with | some o => some o | none => r.output_data),
      status := (match status with | some s => s | none => r.status) }
  { db with flow_histories := updateFirst (fun r => r.id == history_id) upd db.flow_histories }

/-- `create_task_history` (db.py). -/
def create_task_history (db : DB) (flow_history_id : Nat) (name : String)
    (created_at : Int) (start_time : Option Int) (input_data : Option String)
    (status : String) : Nat × DB :=
  let row : TaskHistoryRow :=
    { id := db.next_task_history_id, flow_history_id := flow_history_id,
      name := name, created_at := created_at, start_time := start_time,
      input_data := input_data, status := status }
  (db.next_task_history_id,
   { db with task_histories := db.task_histories ++ [row],
             next_task_history_id := db.next_task_history_id + 1 })

/-- `update_task_history` (db.py). -/
def update_task_history (db : DB) (task_id : Nat) (end_time : Option Int)
    (output_data : Option Payload) (status : Option String) : DB :=
  let upd := fun (r : TaskHistoryRow) =>
    { r with
      end_time := (match end_time with | some t => some t | none => r.end_time),
      output_data := (match output_data with | some o => some o | none => r.output_data),
      status := (match status with | some s => s | none => r.status) }
  { db with task_histories := updateFirst (fun r => r.id == task_id) upd db.task_histories }

/-- `update_task_progress` (db.py): unconditionally overwrite the three
progress fields of the first row with the given id, stamping `now`. -/
def update_task_progress (db : DB) (task_id : Nat) (progress : Int)
    (progress_message : Option String) (now : Int) : DB :=
  let upd := fun (r : TaskHistoryRow) =>
    { r with progress := some progress,
             progress_message := progress_message,
             progress_updated_at := some now }
  { db with task_histories := updateFirst (fun r => r.id == task_id) upd db.task_histories }

/-- `set_progress` (progress.py): validate the value, resolve the ambient
task id, and write the progress fields.  Returns the success flag and the
new store state. -/
def set_progress (progress : PyVal) (message : Option String) (ctx : Ctx)
    (db : DB) : Bool × DB :=
  match progress with
  | .nonInt _ => (false, db)
  | .intVal n =>
    if n < 0 || 100 < n then (false, db)
    else
      match ctx.task_history_id_var with
      | none => (false, db)
      | some task_id =>
          let (now, db) := tick db
          (true, update_task_progress db task_id n message now)

/-- One statement inside a task body: a `set_progress` call or a raise. -/
inductive TaskOp where
  | setProg (v : PyVal) (msg : Option String)
  | raiseE (e : PyExc)
deriving Repr, DecidableEq

/-- A task-decorated call: its display name, serialized input, body
statements and return value. -/
structure TaskCall where
  name : String := "t"
  input_json : String := ""
  ops : List TaskOp := []
  retVal : String := ""
deriving Repr, DecidableEq

/-- Run a task body: execute `set_progress` calls in order until a raise. -/
def runTaskOps : List TaskOp → Ctx → DB → Option PyExc × DB
  | [], _, db => (none, db)
  | .setProg v m :: rest, ctx, db =>
      let (_, db) := set_progress v m ctx db
      runTaskOps rest ctx db
  | .raiseE e :: _, _, db => (some e, db)

/-- The exception (if any) a task body raises; the raise outcome of a body
does not depend on the store or the context. -/
def firstRaise : List TaskOp → Option PyExc
  | [] => none
  | .setProg _ _ :: rest => firstRaise rest
  | .raiseE e :: _ => some e

/-- `task.decorate.wrapper` (task.py): read the ambient flow-execution id;
if bound, create a running TaskHistory row; run the body; finalize the row
in the `finally` block; return the result or re-raise.

The source wrapper obtains `task_history_id` but never calls
`set_task_history_id`, so the ambient task id is left untouched for the
body: this is modelled by passing `ctx` through unchanged. -/
def task_wrapper (t : TaskCall) (ctx : Ctx) (db : DB) :
    Except PyExc String × DB :=
  let fhid? := ctx.flow_history_id_var
  let (tid?, db) :=
    match fhid? with
    | none => (none, db)
    | some fid =>
        let (createdAt, db) := tick db
        let (startT, db) := tick db
        let (tid, db) := create_task_history db fid t.name createdAt
          (some startT) (some t.input_json) "running"
        (some tid, db)
  let (exc?, db) := runTaskOps t.ops ctx db
  let db :=
    match tid? with
    | none => db
    | some tid =>
        let (endT, db) := tick db
        let (status, output) :=
          match exc? with
          | some e => ("failed", Payload.errored (excMsg e) (format_exc e))
          | none => ("completed", Payload.result t.retVal)
        update_task_history db tid (some endT) (some output) (some status)
  match exc? with
  | some e => (.error e, db)
  | none => (.ok t.retVal, db)

/-- One statement inside a flow body: a task call or a raise. -/
inductive FlowOp where
  | callTask (t : TaskCall)
  | raiseE (e : PyExc)
deriving Repr, DecidableEq

/-- A flow-decorated function: its id, display name, body and return
value. -/
structure FlowDef where
  flow_id : String
  name : String := ""
  body : List FlowOp := []
  retVal : String := ""
deriving Repr, DecidableEq

/-- Run a flow body: call tasks in order; a task that raises aborts the
rest of the body and the exception propagates. -/
def runFlowBody : List FlowOp → Ctx → DB → Option PyExc × DB
  | [], _, db => (none, db)
  | .callTask t :: rest, ctx, db =>
      match task_wrapper t ctx db with
      | (.ok _, db) => runFlowBody rest ctx db
      | (.error e, db) => (some e, db)
  | .raiseE e :: _, _, db => (some e, db)

/-- The exception (if any) a flow body raises. -/
def flowFirstRaise : List FlowOp → Option PyExc
  | [] => none
  | .callTask t :: rest =>
      match firstRaise t.ops with
      | some e => some e
      | none => flowFirstRaise rest
  | .raiseE e :: _ => some e

/-- `flow.decorate.wrapper` (flow.py): promote the pre-created row named by
the metadata to running, or insert a new running row; bind the
flow-execution contextvar saving its token; run the body; in the `finally`
block reset the contextvar to the token and finalize the row with
end_time, output and terminal status; return the result or re-raise. -/
def flow_wrapper (f : FlowDef) (input_json : String) (metadata : Option Meta)
    (ctx : Ctx) (db : DB) : Except PyExc String × DB × Ctx :=
  let (createdAt, db) := tick db
  let startT := createdAt
  let mid : Option Nat :=
    match metadata with
    | some m => m.flow_history_id
    | none => none
  let (fhid?, db) :=
    if pyTruthy mid then
      -- promote the existing row; a missing row raises inside the try and
      -- is swallowed (rollback), leaving the store unchanged
      let fid := mid.getD 0
      let promote := fun (r : FlowHistoryRow) =>
        { r with status := "running", start_time := some startT,
                 input_data := some input_json, flow_metadata := metadata }
      let db :=
        if db.flow_histories.any (fun r => r.id == fid) then
          { db with flow_histories :=
              updateFirst (fun r => r.id == fid) promote db.flow_histories }
        else db
      (mid, db)
    else
      let (fid, db) := create_flow_history db f.flow_id createdAt
        (some startT) (some input_json) "running" none
      (some fid, db)
  -- token = flow_history_id_var.set(...) when the id is not None
  let token? : Option (Option Nat) :=
    if fhid?.isSome then some ctx.flow_history_id_var else none
  let ctxIn := if fhid?.isSome then { ctx with flow_history_id_var := fhid? } else ctx
  let (exc?, db) := runFlowBody f.body ctxIn db
  -- finally: reset the contextvar, then finalize the history row
  let ctxOut :=
    match token? with
    | some saved => { ctxIn with flow_history_id_var := saved }
    | none => ctxIn
  let db :=
    if pyTruthy fhid? then
      let (endT, db) := tick db
      let (status, output) :=
        match exc? with
        | some e => ("failed", Payload.errored (excMsg e) (format_exc e))
        | none => ("completed", Payload.result f.retVal)
      update_flow_history db (fhid?.getD 0) (some endT) (some output) (some status)
    else db
  match exc? with
  | some e => (.error e, db, ctxOut)
  | none => (.ok f.retVal, db, ctxOut)

/-- The dictionary `execute_flow` returns. -/
structure FlowResult where
  success : Bool
  result : Option String := none
  error : Option String := none
  traceback : Option String := none
deriving Repr, DecidableEq

/-- `execute_flow` (flow.py): look the flow up in the registry; absent flows
yield a structured not-found result; a raised exception from the wrapper is
caught and converted into a structured failure result. -/
def execute_flow (registry : List FlowDef) (flow_id : String)
    (input_json : String) (metadata : Option Meta) (ctx : Ctx) (db : DB) :
    FlowResult × DB × Ctx :=
  match registry.find? (fun f => f.flow_id == flow_id) with
  | none =>
      ({ success := false, error := some ("Flow " ++ flow_id ++ " 未找到") },
       db, ctx)
  | some f =>
      match flow_wrapper f input_json metadata ctx db with
      | (.ok r, db, ctx) => ({ success := true, result := some r }, db, ctx)
      | (.error e, db, ctx) =>
          ({ success := false, error := some (excMsg e),
             traceback := some (format_exc e) }, db, ctx)

/-! ### Scheduler service: ad-hoc execution (scheduler_service.py) -/

/-- `SchedulerService.add_immediate_job`: synchronously insert a pending
FlowHistory row and return its id (the one-shot timer itself is scheduler
state, not store state). -/
def add_immediate_job (flow_id : String) (input_json : String) (db : DB) :
    Nat × DB :=
  let (now, db) := tick db
  create_flow_history db flow_id now none (some input_json) "pending" none

/-- `SchedulerService.update_flow_history_status`: set the status on the
first row with the given id; running stamps start_time, terminal statuses
stamp end_time and optionally an error payload. -/
def update_flow_history_status (db : DB) (fhid : Nat) (status : String)
    (error_msg : Option String) : DB :=
  if db.flow_histories.any (fun r => r.id == fhid) then
    let (now, db) := tick db
    let upd := fun (r : FlowHistoryRow) =>
      let r := { r with status := status }
      if status == "running" then { r with start_time := some now }
      else if status == "completed" || status == "failed" then
        let r := { r with end_time := some now }
        match error_msg with
        | some m => { r with output_data := some (.simpleError m) }
        | none => r
      else r
    { db with flow_histories := updateFirst (fun r => r.id == fhid) upd db.flow_histories }
  else db

/-- `SchedulerService.execute_immediate_flow`: invoke the flow with metadata
carrying the pre-created FlowHistory id; on a successful result, re-mark the
row completed and attach the result dictionary as output. -/
def execute_immediate_flow (registry : List FlowDef) (flow_id : String)
    (input_json : String) (fhid : Nat) (ctx : Ctx) (db : DB) : DB × Ctx :=
  let metadata : Meta := { flow_history_id := some fhid, trigger_type := "immediate" }
  let (result, db, ctx) := execute_flow registry flow_id input_json (some metadata) ctx db
  let db :=
    if fhid != 0 && result.success then
      let db := update_flow_history_status db fhid "completed" none
      let out := some (Payload.immediateResult result.success result.result result.error)
      let upd := fun (r : FlowHistoryRow) => { r with output_data := out }
      { db with flow_histories := updateFirst (fun r => r.id == fhid) upd db.flow_histories }
    else db
  (db, ctx)

/-! ### Scheduler service: orphan detection (check_orphaned_jobs) -/

/-- A live APScheduler job as the orphan check sees it: its id and the next
run time (`None` for a paused or exhausted job). -/
structure SchedJob where
  id : String
  next_run_time : Option Int
deriving Repr, DecidableEq

/-- A pending row counts as still alive when some job whose id starts with
`immediate_{flow_id}_` has a next run time in the future; with no scheduler
instance the loop body is skipped and the row counts as lost. -/
def job_alive (scheduler? : Option (List SchedJob)) (flow_id : String)
    (now : Int) : Bool :=
  match scheduler? with
  | none => false
  | some jobs =>
      jobs.any (fun j =>
        py_startswith j.id ("immediate_" ++ flow_id ++ "_") &&
        (match j.next_run_time with | some t => decide (now < t) | none => false))

/-- The condition under which step 1 marks a pending row as lost. -/
def pendingLost (r : FlowHistoryRow) (scheduler? : Option (List SchedJob))
    (now pendingTimeout : Int) : Bool :=
  r.status == "pending" && decide (r.created_at < now - pendingTimeout) &&
    !(job_alive scheduler? r.flow_id now)

/-- The per-row action of step 1 on a FlowHistory row. -/
def orphanPendingMark (scheduler? : Option (List SchedJob))
    (now pendingTimeout : Int) (r : FlowHistoryRow) : FlowHistoryRow :=
  if pendingLost r scheduler? now pendingTimeout then
    { r with status := "failed", end_time := some now,
             output_data := some (.orphanPending now) }
  else r

/-- The per-row action of step 1 on a TaskHistory row (cascade-fail the
still-running children of the lost flows). -/
def orphanTaskMark (lostIds : List Nat) (now : Int) (t : TaskHistoryRow) :
    TaskHistoryRow :=
  if lostIds.contains t.flow_history_id && t.status == "running" then
    { t with status := "failed", end_time := some now }
  else t

/-- Step 1 of `check_orphaned_jobs`: mark timed-out pending rows with no
matching live one-shot job as failed with a synthetic payload, and
cascade-fail their still-running child TaskHistory rows. -/
def orphan_step_pending (db : DB) (scheduler? : Option (List SchedJob))
    (now pendingTimeout : Int) : DB :=
  let lostIds :=
    (db.flow_histories.filter (fun r => pendingLost r scheduler? now pendingTimeout)).map (·.id)
  { db with
    flow_histories := db.flow_histories.map (orphanPendingMark scheduler? now pendingTimeout),
    task_histories := db.task_histories.map (orphanTaskMark lostIds now) }

/-- The per-row action of step 2 on a FlowHistory row, given the task table
it counts running children in. -/
def orphanRunningMark (tasks : List TaskHistoryRow) (now runningTimeout : Int)
    (r : FlowHistoryRow) : FlowHistoryRow :=
  if r.status == "running" &&
     (match r.start_time with
      | some st => decide (st < now - runningTimeout)
      | none => false) &&
     ((tasks.filter (fun t =>
         t.flow_history_id == r.id && t.status == "running")).length == 0)
  then
    { r with status := "failed", end_time := some now,
             output_data := some (.orphanRunning now) }
  else r

/-- Step 2 of `check_orphaned_jobs`: a running row past the running timeout
with zero running children is marked failed. -/
def orphan_step_running (db : DB) (now runningTimeout : Int) : DB :=
  { db with flow_histories :=
      db.flow_histories.map (orphanRunningMark db.task_histories now runningTimeout) }

/-- The per-row action of step 3 on a TaskHistory row, given the flow table
it looks its parent up in. -/
def orphanTaskReconcile (flows : List FlowHistoryRow) (now runningTimeout : Int)
    (t : TaskHistoryRow) : TaskHistoryRow :=
  if t.status == "running" &&
     (match t.start_time with
      | some st => decide (st < now - runningTimeout)
      | none => false)
  then
    match flows.find? (fun r => r.id == t.flow_history_id) with
    | some fh =>
        if fh.status == "completed" || fh.status == "failed" then
          { t with status := fh.status, end_time := fh.end_time }
        else t
    | none => t
  else t

/-- Step 3 of `check_orphaned_jobs`: reconcile a long-running TaskHistory
row whose parent flow is already terminal to the parent's status. -/
def orphan_step_tasks (db : DB) (now runningTimeout : Int) : DB :=
  { db with task_histories :=
      db.task_histories.map (orphanTaskReconcile db.flow_histories now runningTimeout) }

/-- `SchedulerService.check_orphaned_jobs`: one full pass, `now` read once
at the top of the pass. -/
def check_orphaned_jobs (db : DB) (scheduler? : Option (List SchedJob))
    (now pendingTimeout runningTimeout : Int) : DB :=
  orphan_step_tasks
    (orphan_step_running (orphan_step_pending db scheduler? now pendingTimeout)
      now runningTimeout)
    now runningTimeout

/-! ### Scheduler service: trigger reconciliation (sync_triggers_from_db) -/

/-- A persisted Trigger row (db.py, class Trigger). -/
structure TriggerRow where
  id : Nat
  flow_id : String
  name : String := ""
  cron_expression : String
  max_instances : Nat := 1
  enabled : Bool := true
deriving Repr, DecidableEq

/-- A live APScheduler cron job: its id, the `str(field)` values of its
CronTrigger fields in APScheduler field order, its concurrency cap, and
whether it is paused (paused jobs have `next_run_time is None`). -/
structure CronJob where
  id : String
  fieldExprs : List String
  max_instances : Nat
  paused : Bool := false
deriving Repr, DecidableEq

/-- APScheduler `CronTrigger.from_crontab`: the five crontab tokens
(minute hour day month day_of_week) become trigger fields stored in
APScheduler FIELD_NAMES order
(year, month, day, week, day_of_week, hour, minute, second), with the
year and week fields defaulting to `*` and second to `0`. -/
def from_crontab (expr : String) : List String :=
  match splitChar ' ' expr with
  | [m, h, d, mo, w] => ["*", mo, d, "*", w, h, m, "0"]
  | _ => []

/-- `SchedulerService.add_job` with `replace_existing=True`. -/
def add_job (jobs : List CronJob) (trigger_id : Nat) (cron : String)
    (mi : Nat) : List CronJob :=
  let jobId := "trigger_" ++ toString trigger_id
  let newJob : CronJob :=
    { id := jobId, fieldExprs := from_crontab cron, max_instances := mi, paused := false }
  if jobs.any (fun j => j.id == jobId) then
    jobs.map (fun j => if j.id == jobId then newJob else j)
  else jobs ++ [newJob]

/-- `SchedulerService.pause_job` (no-op when the job is absent). -/
def pause_job (jobs : List CronJob) (trigger_id : Nat) : List CronJob :=
  let jobId := "trigger_" ++ toString trigger_id
  jobs.map (fun j => if j.id == jobId then { j with paused := true } else j)

/-- `SchedulerService.resume_job` (no-op when the job is absent). -/
def resume_job (jobs : List CronJob) (trigger_id : Nat) : List CronJob :=
  let jobId := "trigger_" ++ toString trigger_id
  jobs.map (fun j => if j.id == jobId then { j with paused := false } else j)

/-- The `sync_result` counters of `sync_triggers_from_db`. -/
structure SyncResult where
  added : Nat := 0
  updated : Nat := 0
  removed : Nat := 0
  pausedCount : Nat := 0
  resumedCount : Nat := 0
  unchanged : Nat := 0
deriving Repr, DecidableEq

/-- The per-trigger body of the reconciliation loop.  For a live job the
loop rebuilds a cron string from `str(field)` of the first five trigger
fields (the source comment claims the format is
minute hour day month day_of_week) and compares it with the stored
expression. -/
def sync_one (st : SyncResult × List CronJob) (t : TriggerRow) :
    SyncResult × List CronJob :=
  let (res, jobs) := st
  let jobId := "trigger_" ++ toString t.id
  let job? := jobs.find? (fun j => j.id == jobId)
  let mi := if t.max_instances == 0 then 1 else t.max_instances
  if t.enabled then
    match job? with
    | none =>
        ({ res with added := res.added + 1 }, add_job jobs t.id t.cron_expression mi)
    | some job =>
        let reconstructed := String.intercalate " " (job.fieldExprs.take 5)
        let needUpdate :=
          (reconstructed != t.cron_expression) || (job.max_instances != mi)
        let (res, jobs) :=
          if !needUpdate && job.paused then
            ({ res with resumedCount := res.resumedCount + 1 }, resume_job jobs t.id)
          else (res, jobs)
        if needUpdate then
          ({ res with updated := res.updated + 1 }, add_job jobs t.id t.cron_expression mi)
        else
          ({ res with unchanged := res.unchanged + 1 }, jobs)
  else
    match job? with
    | some _ =>
        ({ res with pausedCount := res.pausedCount + 1 }, pause_job jobs t.id)
    | none => ({ res with unchanged := res.unchanged + 1 }, jobs)

/-- Parse a trigger id out of a job id of the form `trigger_{n}`
(`int(job.id.split('_')[1])`, skipping unparsable ids). -/
def parse_trigger_id (jobId : String) : Option Nat :=
  if py_startswith jobId "trigger_" then
    match splitChar '_' jobId with
    | _ :: second :: _ => py_int? second
    | _ => none
  else none

/-- `SchedulerService.sync_triggers_from_db`: one reconciliation pass over
the stored triggers and the live jobs, returning the action counters and
the resulting job set.  Orphaned job ids are collected from the snapshot
taken before the per-trigger loop. -/
def sync_triggers_from_db (triggers : List TriggerRow) (jobs : List CronJob) :
    SyncResult × List CronJob :=
  let schedulerIds := (jobs.filterMap (fun j => parse_trigger_id j.id)).dedup
  let (res, jobs1) := triggers.foldl sync_one ({ }, jobs)
  let dbIds := triggers.map (·.id)
  let orphanIds := schedulerIds.filter (fun tid => !(dbIds.contains tid))
  orphanIds.foldl
    (fun (st : SyncResult × List CronJob) tid =>
      let (res, jobs) := st
      let jobId := "trigger_" ++ toString tid
      ({ res with removed := res.removed + 1 },
       jobs.filter (fun j => j.id != jobId)))
    (res, jobs1)

/-! ### Migration manager (migration_manager.py) -/

/-- A migration descriptor: its version, name, the schema columns its
`upgrade` adds, and whether the upgrade succeeds.  A failing upgrade
rolls its own transaction back and changes nothing. -/
structure MigSpec where
  version : String
  name : String := ""
  addsCols : List String := []
  succeeds : Bool := true
deriving Repr, DecidableEq

/-- The history store file: its schema and the `_schema_migrations` ledger
(a ledger record is a version plus a name).  `backup_database` copies the
whole file, so a restore brings back both parts. -/
structure StoreFile where
  schemaCols : List String := []
  ledger : List (String × String) := []
deriving Repr, DecidableEq

/-- `MigrationManager.get_current_version`: the largest ledger version
(`ORDER BY version DESC LIMIT 1`). -/
def get_current_version (s : StoreFile) : Option String :=
  (s.ledger.map (·.1)).foldl
    (fun acc v =>
      match acc with
      | none => some v
      | some a => if strLt a v then some v else some a)
    none

/-- Insertion into a version-sorted migration list. -/
def insertSortedMig (m : MigSpec) : List MigSpec → List MigSpec
  | [] => [m]
  | x :: xs =>
      if strLt m.version x.version then m :: x :: xs
      else x :: insertSortedMig m xs

/-- The migrations sorted by version (`sorted(all_migrations.keys())`). -/
def sortMigs (migs : List MigSpec) : List MigSpec :=
  migs.foldr insertSortedMig []

/-- `MigrationManager.get_pending_migrations`: migrations with a version
strictly greater than the current one, in version order. -/
def get_pending_migrations (migs : List MigSpec) (s : StoreFile) : List MigSpec :=
  let cur := get_current_version s
  (sortMigs migs).filter (fun m =>
    match cur with
    | none => true
    | some c => strLt c m.version)

/-- `MigrationManager.record_migration`: append one ledger record (its own
sqlite connection, committed immediately). -/
def record_migration (s : StoreFile) (m : MigSpec) : StoreFile :=
  { s with ledger := s.ledger ++ [(m.version, m.name)] }

/-- `MigrationManager.run_migration`: apply the upgrade and record it; a
failing upgrade leaves the store unchanged and reports failure. -/
def run_migration (s : StoreFile) (m : MigSpec) : Bool × StoreFile :=
  if m.succeeds then
    (true, record_migration { s with schemaCols := s.schemaCols ++ m.addsCols } m)
  else (false, s)

/-- The batch loop of `run_migrations`: on a failure, stop, restore the
pre-batch backup over the store, and report.  Also returns the list of
attempted migration versions. -/
def run_migrations_loop :
    List MigSpec → StoreFile → StoreFile → Nat → Nat → List String →
    List String → (Nat × Nat × List String) × StoreFile × List String
  | [], s, _, succ, failedN, errs, att => ((succ, failedN, errs), s, att)
  | m :: rest, s, backup, succ, failedN, errs, att =>
      match run_migration s m with
      | (true, s2) =>
          run_migrations_loop rest s2 backup (succ + 1) failedN errs (att ++ [m.version])
      | (false, _) =>
          ((succ, failedN + 1, errs ++ ["迁移 " ++ m.version ++ " 失败"]),
           backup, att ++ [m.version])

/-- `MigrationManager.run_migrations`: back the store up, apply the pending
migrations in order, stop and restore on the first failure.  Returns
(applied count, failed count, error messages), the resulting store file,
and the attempted versions. -/
def run_migrations (migs : List MigSpec) (s : StoreFile) :
    (Nat × Nat × List String) × StoreFile × List String :=
  match get_pending_migrations migs s with
  | [] => ((0, 0, []), s, [])
  | pending =>
      -- create_migrations_table is a no-op on the model store; the backup
      -- is a copy of the whole file
      run_migrations_loop pending s s 0 0 [] []

/-! ### Compressed payload codec (db.py, class CompressedText)

The codec composes two external pure function pairs: `zlib.compress` /
`zlib.decompress` and `str.encode('utf-8')` / `bytes.decode('utf-8')`.
Both are outside this repository and are modelled by their inverse
contracts. -/

/-- The external byte compressor pair (`zlib.compress level 9` /
`zlib.decompress`). -/
structure ByteCodec where
  compress : List Nat → List Nat
  decompress : List Nat → List Nat

/-- The external text codec pair (`str.encode` / `bytes.decode`, utf-8). -/
structure TextCodec where
  encode : String → List Nat
  decode : List Nat → String

/-- `CompressedText.process_bind_param`: `None` passes through; a string is
utf-8 encoded then compressed. -/
def process_bind_param (z : ByteCodec) (u : TextCodec) :
    Option String → Option (List Nat)
  | none => none
  | some s => some (z.compress (u.encode s))

/-- `CompressedText.process_result_value`: `None` passes through; bytes are
decompressed then utf-8 decoded. -/
def process_result_value (z : ByteCodec) (u : TextCodec) :
    Option (List Nat) → Option String
  | none => none
  | some b => some (u.decode (z.decompress b))

/-! ### Derived predicates and concrete fixtures -/

/-- A terminal FlowHistory status. -/
def isTerminal (s : String) : Prop := s = "completed" ∨ s = "failed"

/-- Store well-formedness: every FlowHistory row id is below the
autoincrement counter (so the next insert gets a fresh id), and ids are
positive. -/
def WFdb (db : DB) : Prop :=
  0 < db.next_flow_history_id ∧
  ∀ r ∈ db.flow_histories, r.id < db.next_flow_history_id

/-- The flow-history side of the store (rows plus counter): task execution
never touches it. -/
def flowSide (db : DB) : List FlowHistoryRow × Nat :=
  (db.flow_histories, db.next_flow_history_id)

/-- The result a task body produces on its own (independent of store and
context): its first raise, or the return value. -/
def taskBodyOutcome (t : TaskCall) : Except PyExc String :=
  match firstRaise t.ops with
  | some e => Except.error e
  | none => Except.ok t.retVal

/-- Fixture: a task that reports progress 50 then 100, as in the spec's
end-to-end scenario. -/
def progTask (nm : String) : TaskCall :=
  { name := nm,
    ops := [.setProg (.intVal 50) (some "half"), .setProg (.intVal 100) (some "done")],
    retVal := "ok" }

/-- Fixture: a flow of two sequential progress-reporting tasks. -/
def twoTaskFlow : FlowDef :=
  { flow_id := "two",
    body := [.callTask (progTask "t1"), .callTask (progTask "t2")],
    retVal := "done" }

/-- Fixture: a flow whose body raises `ValueError: x`. -/
def boomFlow : FlowDef :=
  { flow_id := "boom", body := [.raiseE ⟨"ValueError", "x"⟩], retVal := "r" }

/-- Fixture: a task with no progress calls and no raise. -/
def plainTask : TaskCall := { name := "plain", retVal := "out" }

/-- Fixture: one enabled trigger with a midnight cron schedule. -/
def syncTriggers1 : List TriggerRow :=
  [{ id := 1, flow_id := "f", cron_expression := "0 0 * * *" }]

/-- Fixture: a succeeding migration adding one column. -/
def migOk : MigSpec := { version := "001", name := "ok", addsCols := ["col1"] }

/-- Fixture: a failing migration. -/
def migBad : MigSpec := { version := "002", name := "bad", succeeds := false }

/-- Fixture: a pending row past the pending timeout at clock 100. -/
def orphOldRow : FlowHistoryRow :=
  { id := 1, flow_id := "f", created_at := 0, status := "pending" }

/-- Fixture: a pending row younger than the pending timeout at clock 100. -/
def orphYoungRow : FlowHistoryRow :=
  { id := 2, flow_id := "f", created_at := 95, status := "pending" }

/-- Fixture: a still-running child task of the old pending row. -/
def orphChildTask : TaskHistoryRow :=
  { id := 1, flow_history_id := 1, name := "t", created_at := 0,
    start_time := some 0, status := "running" }

/-- Fixture: a store with both pending rows and the running child. -/
def dbOrph : DB :=
  { flow_histories := [orphOldRow, orphYoungRow],
    task_histories := [orphChildTask],
    next_flow_history_id := 3, next_task_history_id := 2, clock := 100 }

/-- A trivially invertible stand-in byte compressor used to instantiate the
codec contract at a concrete input. -/
def idByteCodec : ByteCodec := { compress := fun b => b, decompress := fun b => b }

/-- A concrete invertible text codec (codepoint lists) used to instantiate
the codec contract at a concrete input. -/
def charTextCodec : TextCodec :=
  { encode := fun s => s.data.map Char.toNat,
    decode := fun l => String.mk (l.map Char.ofNat) }

end Flowy

namespace Flowy

/-! ## Theorems -/

/-! ### Generic helper lemmas -/

theorem updateFirst_append_singleton (p : α → Bool) (f : α → α)
    (xs : List α) (y : α) (hxs : ∀ x ∈ xs, p x = false) (hy : p y = true) :
    updateFirst p f (xs ++ [y]) = xs ++ [f y] := by
  induction xs with
  | nil => simp [updateFirst, hy]
  | cons a as ih =>
      have ha : p a = false := hxs a (by simp)
      simp only [List.cons_append, updateFirst, ha, Bool.false_eq_true, if_false,
        List.cons.injEq, true_and]
      exact ih fun x hx => hxs x (by simp [hx])

theorem runTaskOps_fst (ops : List TaskOp) (ctx : Ctx) (db : DB) :
    (runTaskOps ops ctx db).1 = firstRaise ops := by
  induction ops generalizing db with
  | nil => rfl
  | cons op rest ih =>
      cases op with
      | setProg v m => simpa [runTaskOps, firstRaise] using ih _
      | raiseE e => rfl

theorem runTaskOps_unbound (ops : List TaskOp) (ctx : Ctx) (db : DB)
    (ht : ctx.task_history_id_var = none) :
    runTaskOps ops ctx db = (firstRaise ops, db) := by
  induction ops with
  | nil => rfl
  | cons op rest ih =>
      cases op with
      | setProg v m =>
          have hsp : set_progress v m ctx db = (false, db) := by
            cases v with
            | nonInt tag => rfl
            | intVal n =>
                simp only [set_progress, ht]
                split <;> rfl
          simp [runTaskOps, hsp, firstRaise, ih]
      | raiseE e => rfl

theorem set_progress_flowSide (v : PyVal) (m : Option String) (ctx : Ctx)
    (db : DB) : flowSide (set_progress v m ctx db).2 = flowSide db := by
  cases v with
  | nonInt tag => rfl
  | intVal n =>
      simp only [set_progress]
      split
      · rfl
      · cases h : ctx.task_history_id_var <;>
          simp [tick, update_task_progress, flowSide]

theorem runTaskOps_flowSide (ops : List TaskOp) (ctx : Ctx) (db : DB) :
    flowSide (runTaskOps ops ctx db).2 = flowSide db := by
  induction ops generalizing db with
  | nil => rfl
  | cons op rest ih =>
      cases op with
      | setProg v m =>
          calc flowSide (runTaskOps (.setProg v m :: rest) ctx db).2
              = flowSide (set_progress v m ctx db).2 := by
                simpa [runTaskOps] using ih (set_progress v m ctx db).2
            _ = flowSide db := set_progress_flowSide v m ctx db
      | raiseE e => rfl

theorem task_wrapper_flowSide (t : TaskCall) (ctx : Ctx) (db : DB) :
    flowSide (task_wrapper t ctx db).2 = flowSide db := by
  simp only [task_wrapper]
  cases hf : ctx.flow_history_id_var with
  | none =>
      simp only
      have h := runTaskOps_flowSide t.ops ctx db
      cases hr : runTaskOps t.ops ctx db with
      | mk exc? db2 =>
          cases exc? <;> simpa [hr] using h
  | some fid =>
      simp only
      have h := runTaskOps_flowSide t.ops ctx
        (create_task_history (tick (tick db).2).2 fid t.name (tick db).1
          (some (tick (tick db).2).1) (some t.input_json) "running").2
      cases hr : runTaskOps t.ops ctx
          (create_task_history (tick (tick db).2).2 fid t.name (tick db).1
            (some (tick (tick db).2).1) (some t.input_json) "running").2 with
      | mk exc? db2 =>
          cases exc? <;>
            simp_all [tick, create_task_history, update_task_history, flowSide]

theorem task_wrapper_fst (t : TaskCall) (ctx : Ctx) (db : DB) :
    (task_wrapper t ctx db).1 = taskBodyOutcome t := by
  simp only [task_wrapper, taskBodyOutcome]
  cases hf : ctx.flow_history_id_var with
  | none =>
      simp only
      have h := runTaskOps_fst t.ops ctx db
      cases hr : runTaskOps t.ops ctx db with
      | mk exc? db2 =>
          rw [hr] at h
          cases exc? <;> simp only at h ⊢ <;> rw [← h]
  | some fid =>
      simp only
      have h := runTaskOps_fst t.ops ctx
        (create_task_history (tick (tick db).2).2 fid t.name (tick db).1
          (some (tick (tick db).2).1) (some t.input_json) "running").2
      cases hr : runTaskOps t.ops ctx
          (create_task_history (tick (tick db).2).2 fid t.name (tick db).1
            (some (tick (tick db).2).1) (some t.input_json) "running").2 with
      | mk exc? db2 =>
          rw [hr] at h
          cases exc? <;> simp only at h ⊢ <;> rw [← h]

theorem runFlowBody_fst (ops : List FlowOp) (ctx : Ctx) (db : DB) :
    (runFlowBody ops ctx db).1 = flowFirstRaise ops := by
  induction ops generalizing db with
  | nil => rfl
  | cons op rest ih =>
      cases op with
      | callTask t =>
          have hfst := task_wrapper_fst t ctx db
          cases hw : task_wrapper t ctx db with
          | mk r db2 =>
              rw [hw] at hfst
              simp only [runFlowBody, hw, flowFirstRaise]
              cases hf : firstRaise t.ops with
              | none =>
                  simp only [taskBodyOutcome, hf] at hfst
                  subst hfst
                  simpa using ih db2
              | some e =>
                  simp only [taskBodyOutcome, hf] at hfst
                  subst hfst
                  simp
      | raiseE e => rfl

theorem runFlowBody_flowSide (ops : List FlowOp) (ctx : Ctx) (db : DB) :
    flowSide (runFlowBody ops ctx db).2 = flowSide db := by
  induction ops generalizing db with
  | nil => rfl
  | cons op rest ih =>
      cases op with
      | callTask t =>
          have hside := task_wrapper_flowSide t ctx db
          cases hw : task_wrapper t ctx db with
          | mk r db2 =>
              rw [hw] at hside
              cases r with
              | ok v => simp only [runFlowBody, hw]; rw [ih db2]; exact hside
              | error e => simpa [runFlowBody, hw] using hside
      | raiseE e => rfl

theorem beq_id_false_of_lt {r : FlowHistoryRow} {n : Nat} (h : r.id < n) :
    (r.id == n) = false := by
  simp only [beq_eq_false_iff_ne, ne_eq]
  omega

/-- The flow wrapper invoked without a metadata id inserts exactly one new
row (fresh id, the call's input and timestamps) and finalizes it with the
outcome of the body: failed plus an error payload on a raise, completed
plus a result payload otherwise; the call returns the body's outcome. -/
theorem flow_wrapper_new_row (f : FlowDef) (input : String) (ctx : Ctx)
    (db : DB) (hwf : WFdb db) :
    ∃ endT : Int,
      (flow_wrapper f input none ctx db).2.1.flow_histories =
        db.flow_histories ++
          [{ id := db.next_flow_history_id, flow_id := f.flow_id,
             flow_metadata := none, created_at := db.clock,
             start_time := some db.clock, end_time := some endT,
             input_data := some input,
             output_data := some (match flowFirstRaise f.body with
               | some e => Payload.errored (excMsg e) (format_exc e)
               | none => Payload.result f.retVal),
             status := (match flowFirstRaise f.body with
               | some _ => "failed"
               | none => "completed") }] ∧
      (flow_wrapper f input none ctx db).1 =
        (match flowFirstRaise f.body with
         | some e => Except.error e
         | none => Except.ok f.retVal) := by
  obtain ⟨hpos, hids⟩ := hwf
  have hne : (db.next_flow_history_id != 0) = true := by
    simp only [bne_iff_ne, ne_eq]
    omega
  simp only [flow_wrapper, tick, pyTruthy, Bool.false_eq_true, if_false,
    create_flow_history, Option.isSome_some, if_true]
  set ctxIn : Ctx := { ctx with flow_history_id_var := some db.next_flow_history_id }
  set dbC : DB :=
    { db with
        clock := db.clock + 1,
        flow_histories := db.flow_histories ++
          [{ id := db.next_flow_history_id, flow_id := f.flow_id,
             flow_metadata := none, created_at := db.clock,
             start_time := some db.clock, input_data := some input,
             status := "running" }],
        next_flow_history_id := db.next_flow_history_id + 1 } with hdbC
  have hfst := runFlowBody_fst f.body ctxIn dbC
  have hside := runFlowBody_flowSide f.body ctxIn dbC
  cases hb : runFlowBody f.body ctxIn dbC with
  | mk exc? db3 =>
      rw [hb] at hfst hside
      simp only [flowSide, hdbC, Prod.mk.injEq] at hside
      simp only at hfst
      subst hfst
      refine ⟨db3.clock, ?_⟩
      simp only [hne, if_true, update_flow_history, Option.getD_some]
      cases hexc : flowFirstRaise f.body with
      | none =>
          simp only [hexc]
          refine ⟨?_, by first | rfl | trivial⟩
          rw [hside.1, updateFirst_append_singleton _ _ _ _
            (fun x hx => beq_id_false_of_lt (hids x hx)) (by simp)]
      | some e =>
          simp only [hexc]
          refine ⟨?_, by first | rfl | trivial⟩
          rw [hside.1, updateFirst_append_singleton _ _ _ _
            (fun x hx => beq_id_false_of_lt (hids x hx)) (by simp)]



/-- The flow wrapper invoked with a metadata id naming the last stored row
promotes that row in place (no new row) and finalizes it with the outcome
of the body. -/
theorem flow_wrapper_promote_row (f : FlowDef) (input : String) (meta : Meta)
    (ctx : Ctx) (db : DB) (fid : Nat) (xs : List FlowHistoryRow)
    (p : FlowHistoryRow)
    (hmeta : meta.flow_history_id = some fid) (hfid : fid ≠ 0)
    (hsplit : db.flow_histories = xs ++ [p]) (hpid : p.id = fid)
    (hxs : ∀ r ∈ xs, r.id ≠ fid) :
    ∃ endT : Int,
      (flow_wrapper f input (some meta) ctx db).2.1.flow_histories =
        xs ++ [{ p with
          status := (match flowFirstRaise f.body with
            | some _ => "failed"
            | none => "completed"),
          start_time := some db.clock, input_data := some input,
          flow_metadata := some meta, end_time := some endT,
          output_data := some (match flowFirstRaise f.body with
            | some e => Payload.errored (excMsg e) (format_exc e)
            | none => Payload.result f.retVal) }] ∧
      (flow_wrapper f input (some meta) ctx db).1 =
        (match flowFirstRaise f.body with
         | some e => Except.error e
         | none => Except.ok f.retVal) := by
  have hne : (fid != 0) = true := by
    simp only [bne_iff_ne, ne_eq]
    exact hfid
  have hany : (db.flow_histories.any (fun r => r.id == fid)) = true := by
    rw [hsplit]
    simp [hpid]
  have hpxs : ∀ x ∈ xs, ((fun (r : FlowHistoryRow) => r.id == fid) x) = false := by
    intro x hx
    simp [hxs x hx]
  have hpp : ((fun (r : FlowHistoryRow) => r.id == fid) p) = true := by simp [hpid]
  simp only [flow_wrapper, tick, hmeta, pyTruthy, hne, if_true,
    Option.getD_some, Option.isSome_some]
  rw [hany]
  simp only [if_true]
  rw [hsplit, updateFirst_append_singleton _ _ xs p hpxs hpp]
  set ctxIn : Ctx := { ctx with flow_history_id_var := some fid } with hctx
  set pr : FlowHistoryRow := { p with flow_metadata := some meta, start_time := some db.clock, input_data := some input, status := "running" } with hpr
  set dbP : DB := { db with clock := db.clock + 1, flow_histories := xs ++ [pr] } with hdbP
  have hfst := runFlowBody_fst f.body ctxIn dbP
  have hside := runFlowBody_flowSide f.body ctxIn dbP
  have hpp2 : ((fun (r : FlowHistoryRow) => r.id == fid) pr) = true := by
    simp [hpr, hpid]
  cases hb : runFlowBody f.body ctxIn dbP with
  | mk exc? db3 =>
      rw [hb] at hfst hside
      simp only [flowSide, hdbP, Prod.mk.injEq] at hside
      simp only at hfst
      subst hfst
      refine ⟨db3.clock, ?_⟩
      simp only [update_flow_history]
      cases hexc : flowFirstRaise f.body with
      | none =>
          simp only [hexc]
          refine ⟨?_, by first | rfl | trivial⟩
          rw [hside.1, updateFirst_append_singleton _ _ _ _ hpxs hpp2]
      | some e =>
          simp only [hexc]
          refine ⟨?_, by first | rfl | trivial⟩
          rw [hside.1, updateFirst_append_singleton _ _ _ _ hpxs hpp2]


/-- C5 -- On every exit path of the flow wrapper (normal return and raise
alike) the flow-execution-id contextvar is reset to the token saved at
entry, so the ambient id after the call equals the ambient id before it. -/
theorem flow_history_var_restored_on_exit (f : FlowDef) (input : String)
    (metadata : Option Meta) (ctx : Ctx) (db : DB) :
    ((flow_wrapper f input metadata ctx db).2.2).flow_history_id_var =
      ctx.flow_history_id_var := by
  simp only [flow_wrapper, tick]
  repeat' split
  all_goals simp_all


theorem execute_flow_found (reg : List FlowDef) (fid : String) (f : FlowDef)
    (input : String) (metadata : Option Meta) (ctx : Ctx) (db : DB)
    (hreg : reg.find? (fun g => g.flow_id == fid) = some f) :
    execute_flow reg fid input metadata ctx db =
      (match (flow_wrapper f input metadata ctx db).1 with
       | Except.ok r => { success := true, result := some r }
       | Except.error e =>
           { success := false, error := some (excMsg e),
             traceback := some (format_exc e) },
       (flow_wrapper f input metadata ctx db).2) := by
  simp only [execute_flow, hreg]
  cases hw : flow_wrapper f input metadata ctx db with
  | mk r rest =>
      cases rest with
      | mk db2 ctx2 => cases r <;> simp

theorem update_flow_history_status_last (db : DB) (fid : Nat) (st : String)
    (err : Option String) (xs : List FlowHistoryRow) (row : FlowHistoryRow)
    (hsplit : db.flow_histories = xs ++ [row]) (hid : row.id = fid)
    (hxs : ∀ r ∈ xs, r.id ≠ fid) :
    ∃ row2 : FlowHistoryRow,
      (update_flow_history_status db fid st err).flow_histories = xs ++ [row2] ∧
      row2.id = fid ∧ row2.status = st := by
  have hany : db.flow_histories.any (fun r => r.id == fid) = true := by
    rw [hsplit]
    simp [hid]
  simp only [update_flow_history_status, hany, if_true, tick]
  rw [hsplit, updateFirst_append_singleton _ _ xs row
    (fun x hx => by simp [hxs x hx]) (by simp [hid])]
  refine ⟨_, rfl, ?_, ?_⟩
  · split
    · simp [hid]
    · split
      · cases err <;> simp [hid]
      · simp [hid]
  · split
    · simp
    · split
      · cases err <;> simp
      · simp

/-- C4 -- Every invocation of a registered flow leaves behind exactly one
FlowHistory row for it, in a terminal status, once the synchronous call
returns: the direct path appends a single new row and finalizes it, and
the ad-hoc path promotes the single pre-created pending row in place
(same id, no duplicate) and finalizes it. -/
theorem invocation_yields_one_terminal_row (reg : List FlowDef) (fid : String)
    (f : FlowDef) (input : String) (ctx : Ctx) (db : DB)
    (hreg : reg.find? (fun g => g.flow_id == fid) = some f)
    (hwf : WFdb db) :
    (∃ row : FlowHistoryRow,
       (execute_flow reg fid input none ctx db).2.1.flow_histories =
         db.flow_histories ++ [row] ∧ isTerminal row.status) ∧
    (∃ row : FlowHistoryRow,
       (execute_immediate_flow reg fid input (add_immediate_job fid input db).1
           ctx (add_immediate_job fid input db).2).1.flow_histories =
         db.flow_histories ++ [row] ∧
       row.id = (add_immediate_job fid input db).1 ∧ isTerminal row.status) := by
  obtain ⟨hpos, hids⟩ := hwf
  constructor
  · obtain ⟨endT, hrows, hres⟩ := flow_wrapper_new_row f input ctx db ⟨hpos, hids⟩
    rw [execute_flow_found reg fid f input none ctx db hreg]
    refine ⟨{ id := db.next_flow_history_id, flow_id := f.flow_id, flow_metadata := none, created_at := db.clock, start_time := some db.clock, end_time := some endT, input_data := some input, output_data := some (match flowFirstRaise f.body with | some e => Payload.errored (excMsg e) (format_exc e) | none => Payload.result f.retVal), status := (match flowFirstRaise f.body with | some _ => "failed" | none => "completed") }, ?_, ?_⟩
    · simpa using hrows
    · cases hexc : flowFirstRaise f.body <;> simp [hexc, isTerminal]
  · have hfidne : db.next_flow_history_id ≠ 0 := by omega
    have hxs2 : ∀ r ∈ db.flow_histories, r.id ≠ db.next_flow_history_id :=
      fun r hr => by have := hids r hr; omega
    have hadd : add_immediate_job fid input db =
        (db.next_flow_history_id, { db with clock := db.clock + 1, flow_histories := db.flow_histories ++ [{ id := db.next_flow_history_id, flow_id := fid, flow_metadata := none, created_at := db.clock, start_time := none, input_data := some input, output_data := none, status := "pending" }], next_flow_history_id := db.next_flow_history_id + 1 }) := rfl
    rw [hadd]
    simp only [execute_immediate_flow]
    set meta1 : Meta := { flow_history_id := some db.next_flow_history_id, trigger_type := "immediate" } with hmeta1
    set pend : FlowHistoryRow := { id := db.next_flow_history_id, flow_id := fid, flow_metadata := none, created_at := db.clock, start_time := none, end_time := none, input_data := some input, output_data := none, status := "pending" } with hpend
    set db1 : DB := { db with clock := db.clock + 1, flow_histories := db.flow_histories ++ [pend], next_flow_history_id := db.next_flow_history_id + 1 } with hdb1
    rw [execute_flow_found reg fid f input (some meta1) ctx db1 hreg]
    obtain ⟨endT, hrows, hres⟩ :=
      flow_wrapper_promote_row f input meta1 ctx db1 db.next_flow_history_id
        db.flow_histories pend rfl hfidne rfl rfl hxs2
    cases hexc : flowFirstRaise f.body with
    | none =>
        rw [hexc] at hrows hres
        simp only at hrows hres
        rw [hres]
        have hbne : (db.next_flow_history_id != 0) = true := by
          simp only [bne_iff_ne, ne_eq]
          exact hfidne
        simp only [hbne, Bool.true_and, if_true]
        obtain ⟨row3, hr3, hid3, hst3⟩ :=
          update_flow_history_status_last
            ((flow_wrapper f input (some meta1) ctx db1).2.1)
            db.next_flow_history_id "completed" none db.flow_histories
            { id := db.next_flow_history_id, flow_id := fid, flow_metadata := some meta1, created_at := db.clock, start_time := some (db.clock + 1), end_time := some endT, input_data := some input, output_data := some (Payload.result f.retVal), status := "completed" }
            hrows rfl hxs2
        rw [hr3, updateFirst_append_singleton _ _ _ _
          (fun x hx => by simp [hxs2 x hx]) (by simp [hid3])]
        exact ⟨_, rfl, by simpa using hid3, Or.inl (by simpa using hst3)⟩
    | some e =>
        rw [hexc] at hrows hres
        simp only at hrows hres
        rw [hres]
        simp only [Bool.and_false]
        simp only [show ((false : Bool) = true) = False by simp, if_false]
        exact ⟨_, hrows, rfl, Or.inr rfl⟩


/-- Witness for the invocation theorem at a concrete registry and the empty
store. -/
theorem invocation_yields_one_terminal_row_witness :
    ([twoTaskFlow].find? (fun g => g.flow_id == "two") = some twoTaskFlow) ∧
    WFdb { } ∧
    ((∃ row : FlowHistoryRow,
        (execute_flow [twoTaskFlow] "two" "in" none { } { }).2.1.flow_histories =
          ({ } : DB).flow_histories ++ [row] ∧ isTerminal row.status) ∧
     (∃ row : FlowHistoryRow,
        (execute_immediate_flow [twoTaskFlow] "two" "in"
            (add_immediate_job "two" "in" { }).1 { }
            (add_immediate_job "two" "in" { }).2).1.flow_histories =
          ({ } : DB).flow_histories ++ [row] ∧
        row.id = (add_immediate_job "two" "in" { }).1 ∧ isTerminal row.status)) :=
  ⟨rfl, ⟨by norm_num, by simp⟩,
   invocation_yields_one_terminal_row [twoTaskFlow] "two" twoTaskFlow "in" { } { }
     rfl ⟨by norm_num, by simp⟩⟩

/-- C6 counterexample -- For the concrete flow `boom` whose body raises
`ValueError: x`, the wrapper re-raises, but `execute_flow` (the flow-id
based invoke) catches the exception and RETURNS a structured failure
dictionary: its direct caller observes a swallowed result, not a raised
error, contradicting the claim. -/
theorem execute_flow_swallows_raise_counterexample :
    (flow_wrapper boomFlow "in" none { } { }).1 =
      Except.error { kind := "ValueError", msg := "x" } ∧
    (execute_flow [boomFlow] "boom" "in" none { } { }).1 =
      { success := false, result := none, error := some "ValueError: x",
        traceback := some "Traceback (most recent call last): ValueError: x" } :=
  ⟨rfl, rfl⟩

/-- C6 (amended) -- When a flow body raises, the engine writes the exception
kind, message and trace into the FlowHistory output, sets status failed and
finalizes end_time, and re-raises the exception to the direct caller of the
decorated wrapper; `execute_flow`, the flow-id invoke, catches that
re-raised exception and returns a structured failure result (success false
with the error kind+message and traceback) instead of re-raising it. -/
theorem flow_error_captured_and_reraised (reg : List FlowDef) (fid : String)
    (f : FlowDef) (input : String) (ctx : Ctx) (db : DB) (e : PyExc)
    (hreg : reg.find? (fun g => g.flow_id == fid) = some f)
    (hwf : WFdb db) (hraise : flowFirstRaise f.body = some e) :
    (flow_wrapper f input none ctx db).1 = Except.error e ∧
    (execute_flow reg fid input none ctx db).1 =
      { success := false, error := some (excMsg e),
        traceback := some (format_exc e) } ∧
    (∃ row : FlowHistoryRow, ∃ endT : Int,
       (execute_flow reg fid input none ctx db).2.1.flow_histories =
         db.flow_histories ++ [row] ∧ row.status = "failed" ∧
       row.output_data = some (Payload.errored (excMsg e) (format_exc e)) ∧
       row.end_time = some endT) := by
  obtain ⟨endT, hrows, hres⟩ := flow_wrapper_new_row f input ctx db hwf
  rw [hraise] at hrows hres
  simp only at hrows hres
  refine ⟨hres, ?_, ?_⟩
  · rw [execute_flow_found reg fid f input none ctx db hreg, hres]
  · rw [execute_flow_found reg fid f input none ctx db hreg]
    exact ⟨_, endT, by simpa using hrows, rfl, rfl, rfl⟩

/-- Witness for the amended error-capture theorem at the concrete `boom`
flow. -/
theorem flow_error_captured_and_reraised_witness :
    ([boomFlow].find? (fun g => g.flow_id == "boom") = some boomFlow) ∧
    WFdb { } ∧
    flowFirstRaise boomFlow.body = some { kind := "ValueError", msg := "x" } ∧
    ((flow_wrapper boomFlow "in" none { } { }).1 =
       Except.error { kind := "ValueError", msg := "x" } ∧
     (execute_flow [boomFlow] "boom" "in" none { } { }).1 =
       { success := false,
         error := some (excMsg { kind := "ValueError", msg := "x" }),
         traceback := some (format_exc { kind := "ValueError", msg := "x" }) } ∧
     (∃ row : FlowHistoryRow, ∃ endT : Int,
        (execute_flow [boomFlow] "boom" "in" none { } { }).2.1.flow_histories =
          ({ } : DB).flow_histories ++ [row] ∧ row.status = "failed" ∧
        row.output_data = some (Payload.errored
          (excMsg { kind := "ValueError", msg := "x" })
          (format_exc { kind := "ValueError", msg := "x" })) ∧
        row.end_time = some endT)) :=
  ⟨rfl, ⟨by norm_num, by simp⟩, rfl,
   flow_error_captured_and_reraised [boomFlow] "boom" boomFlow "in" { } { }
     { kind := "ValueError", msg := "x" } rfl ⟨by norm_num, by simp⟩ rfl⟩

/-- C8 -- A task-decorated call made while no flow-execution id is bound in
the ambient context executes the body normally and returns its result, and
neither creates nor writes any TaskHistory row: the store is unchanged.
(The ambient task id is `none` throughout the program, since
`set_task_history_id` is never called.) -/
theorem task_without_flow_binding (t : TaskCall) (ctx : Ctx) (db : DB)
    (hf : ctx.flow_history_id_var = none)
    (ht : ctx.task_history_id_var = none) :
    task_wrapper t ctx db = (taskBodyOutcome t, db) := by
  simp only [task_wrapper, hf]
  rw [runTaskOps_unbound t.ops ctx db ht]
  simp only [taskBodyOutcome]
  cases hfr : firstRaise t.ops <;> simp

/-- Witness for the unbound-context task theorem at a concrete task. -/
theorem task_without_flow_binding_witness :
    ({ } : Ctx).flow_history_id_var = none ∧
    ({ } : Ctx).task_history_id_var = none ∧
    task_wrapper plainTask { } { } = (taskBodyOutcome plainTask, { }) :=
  ⟨rfl, rfl, task_without_flow_binding plainTask { } { } rfl rfl⟩

/-- C9 -- `set_progress` returns false and leaves the store untouched when
the value is not an integer, when an integer value is outside [0, 100], and
when the value is valid but no task id is bound in the ambient context. -/
theorem set_progress_rejects_invalid_and_unbound :
    (∀ (tag : String) (msg : Option String) (ctx : Ctx) (db : DB),
        set_progress (.nonInt tag) msg ctx db = (false, db)) ∧
    (∀ (n : Int) (msg : Option String) (ctx : Ctx) (db : DB),
        n < 0 ∨ 100 < n → set_progress (.intVal n) msg ctx db = (false, db)) ∧
    (∀ (n : Int) (msg : Option String) (ctx : Ctx) (db : DB),
        0 ≤ n → n ≤ 100 → ctx.task_history_id_var = none →
        set_progress (.intVal n) msg ctx db = (false, db)) := by
  refine ⟨fun tag msg ctx db => rfl, ?_, ?_⟩
  · intro n msg ctx db h
    have hc : (decide (n < 0) || decide (100 < n)) = true := by
      rcases h with h | h <;> simp [h]
    simp [set_progress, hc]
  · intro n msg ctx db h0 h100 hnone
    have h1 : ¬ (n < 0) := by omega
    have h2 : ¬ (100 < n) := by omega
    simp [set_progress, h1, h2, hnone]

/-- Witness for the progress-validation theorem: the spec scenarios
`set_progress(150, "x")` and `set_progress(50, "x")` with no bound id. -/
theorem set_progress_rejects_witness :
    set_progress (.intVal 150) (some "x") { } { } = (false, { }) ∧
    ((0 : Int) ≤ 50 ∧ (50 : Int) ≤ 100 ∧ ({ } : Ctx).task_history_id_var = none) ∧
    set_progress (.intVal 50) (some "x") { } { } = (false, { }) :=
  ⟨set_progress_rejects_invalid_and_unbound.2.1 150 (some "x") { } { }
     (Or.inr (by norm_num)),
   ⟨by norm_num, by norm_num, rfl⟩,
   set_progress_rejects_invalid_and_unbound.2.2 50 (some "x") { } { }
     (by norm_num) (by norm_num) rfl⟩

/-- C1 -- Evaluating the engine on a flow of two sequential tasks that each
call `set_progress` ending at 100: the invocation succeeds, FlowHistory is
completed and both TaskHistory rows are completed, but the recorded
progress on both rows is `none`, not 100 -- the task wrapper never binds
the task id into the ambient context (`set_task_history_id` has no
callers), so every in-task `set_progress` call is a silent no-op. -/
theorem two_task_flow_progress_never_recorded :
    (execute_flow [twoTaskFlow] "two" "in" none { } { }).1.success = true ∧
    ((execute_flow [twoTaskFlow] "two" "in" none { } { }).2.1.flow_histories.map
        (fun r => r.status)) = ["completed"] ∧
    ((execute_flow [twoTaskFlow] "two" "in" none { } { }).2.1.task_histories.map
        (fun t => t.status)) = ["completed", "completed"] ∧
    ((execute_flow [twoTaskFlow] "two" "in" none { } { }).2.1.task_histories.map
        (fun t => t.progress)) = [none, none] :=
  ⟨rfl, rfl, rfl, rfl⟩

/-- C3 -- Evaluating the reconciliation pass on one enabled trigger with
cron `0 0 * * *`: the first pass adds the job; the second pass, with no
trigger mutation in between, still reports one update action -- the cron
string rebuilt from the live job's first five APScheduler fields is
`* * * * *` (year month day week day_of_week), which never equals the
stored expression, so the job is replaced on every pass. -/
theorem sync_second_pass_performs_update :
    (sync_triggers_from_db syncTriggers1 []).1 =
      { added := 1, updated := 0, removed := 0, pausedCount := 0,
        resumedCount := 0, unchanged := 0 } ∧
    (sync_triggers_from_db syncTriggers1
        (sync_triggers_from_db syncTriggers1 []).2).1 =
      { added := 0, updated := 1, removed := 0, pausedCount := 0,
        resumedCount := 0, unchanged := 0 } :=
  ⟨rfl, rfl⟩

/-- C2 counterexample -- With a succeeding migration `001` followed by a
failing migration `002` on an empty store, the batch reports one applied
and one failed and restores the pre-batch backup -- and because the ledger
lives inside the restored store file, the final ledger is empty: it does
NOT record the successful migration. -/
theorem migration_restore_wipes_ledger_counterexample :
    run_migrations [migOk, migBad] { } =
      ((1, 1, ["迁移 002 失败"]), ({ } : StoreFile), ["001", "002"]) ∧
    ¬ (("001", "ok") ∈ (run_migrations [migOk, migBad] { }).2.1.ledger) :=
  ⟨rfl, by decide⟩

/-- C2 (amended) -- A batch whose pending list starts with a succeeding
migration followed by a failing one stops at the failure, attempts no later
migration, reports one applied and one failed with the failure message, and
restores the store -- ledger included -- to its exact pre-batch contents,
so the ledger reflects the pre-batch state rather than the successful
migration. -/
theorem migration_batch_failure_restores_prebatch (migs : List MigSpec)
    (s : StoreFile) (m1 m2 : MigSpec) (rest : List MigSpec)
    (hp : get_pending_migrations migs s = m1 :: m2 :: rest)
    (h1 : m1.succeeds = true) (h2 : m2.succeeds = false) :
    run_migrations migs s =
      ((1, 1, ["迁移 " ++ m2.version ++ " 失败"]), s,
       [m1.version, m2.version]) := by
  unfold run_migrations
  rw [hp]
  simp [run_migrations_loop, run_migration, h1, h2, record_migration]

/-- Witness for the migration-batch theorem at the concrete two-migration
batch on the empty store. -/
theorem migration_batch_failure_witness :
    get_pending_migrations [migOk, migBad] { } = [migOk, migBad] ∧
    migOk.succeeds = true ∧ migBad.succeeds = false ∧
    run_migrations [migOk, migBad] { } =
      ((1, 1, ["迁移 " ++ migBad.version ++ " 失败"]), ({ } : StoreFile),
       [migOk.version, migBad.version]) :=
  ⟨by decide, rfl, rfl,
   migration_batch_failure_restores_prebatch [migOk, migBad] { } migOk migBad []
     (by decide) rfl rfl⟩

/-- C10 -- The compressed-payload codec round-trips: given that the two
external pure function pairs it composes (zlib compress/decompress and
utf-8 encode/decode) are mutually inverse, decoding the bytes produced by
encoding any string returns that string, and both directions map `None` to
`None`. -/
theorem compressed_text_roundtrips (z : ByteCodec) (u : TextCodec)
    (hz : ∀ b, z.decompress (z.compress b) = b)
    (hu : ∀ s, u.decode (u.encode s) = s) :
    (∀ s : String,
       process_result_value z u (process_bind_param z u (some s)) = some s) ∧
    process_bind_param z u none = none ∧
    process_result_value z u none = none := by
  refine ⟨fun s => ?_, rfl, rfl⟩
  simp [process_bind_param, process_result_value, hz, hu]

/-- Witness for the codec round-trip theorem with a concrete invertible
codec pair and input. -/
theorem compressed_text_roundtrips_witness :
    (∀ b, idByteCodec.decompress (idByteCodec.compress b) = b) ∧
    (∀ s, charTextCodec.decode (charTextCodec.encode s) = s) ∧
    process_result_value idByteCodec charTextCodec
      (process_bind_param idByteCodec charTextCodec (some "flowy")) =
      some "flowy" ∧
    process_bind_param idByteCodec charTextCodec none = none ∧
    process_result_value idByteCodec charTextCodec none = none := by
  have hz : ∀ b, idByteCodec.decompress (idByteCodec.compress b) = b :=
    fun b => rfl
  have hu : ∀ s, charTextCodec.decode (charTextCodec.encode s) = s := by
    intro s
    show String.mk ((s.data.map Char.toNat).map Char.ofNat) = s
    rw [List.map_map]
    have hcomp : Char.ofNat ∘ Char.toNat = id := funext fun c => Char.ofNat_toNat c
    rw [hcomp, List.map_id]
  obtain ⟨h1, h2, h3⟩ := compressed_text_roundtrips idByteCodec charTextCodec hz hu
  exact ⟨hz, hu, h1 "flowy", h2, h3⟩


/-- A lost pending row is marked failed with the synthetic payload. -/
theorem orphanPendingMark_lost (sched? : Option (List SchedJob))
    (now pt : Int) (r : FlowHistoryRow)
    (h : pendingLost r sched? now pt = true) :
    orphanPendingMark sched? now pt r =
      { r with status := "failed", end_time := some now, output_data := some (Payload.orphanPending now) } := by
  simp [orphanPendingMark, h]

/-- A row that is not lost is left unchanged by step 1. -/
theorem orphanPendingMark_keep (sched? : Option (List SchedJob))
    (now pt : Int) (r : FlowHistoryRow)
    (h : pendingLost r sched? now pt = false) :
    orphanPendingMark sched? now pt r = r := by
  simp [orphanPendingMark, h]

/-- Step 2 ignores rows whose status is not running. -/
theorem orphanRunningMark_skip (tasks : List TaskHistoryRow) (now rt : Int)
    (r : FlowHistoryRow) (h : (r.status == "running") = false) :
    orphanRunningMark tasks now rt r = r := by
  simp [orphanRunningMark, h]

/-- A running child of a lost flow is cascade-failed by step 1. -/
theorem orphanTaskMark_hit (lostIds : List Nat) (now : Int)
    (t : TaskHistoryRow) (hc : lostIds.contains t.flow_history_id = true)
    (ht : (t.status == "running") = true) :
    orphanTaskMark lostIds now t =
      { t with status := "failed", end_time := some now } := by
  simp only [orphanTaskMark, hc, ht]
  rfl

/-- Step 3 ignores task rows whose status is not running. -/
theorem orphanTaskReconcile_skip (flows : List FlowHistoryRow) (now rt : Int)
    (t : TaskHistoryRow) (h : (t.status == "running") = false) :
    orphanTaskReconcile flows now rt t = t := by
  simp [orphanTaskReconcile, h]

/-- C7 -- After one orphan-detection pass: a pending FlowHistory row older
than the pending timeout with no matching live one-shot job is failed with
the synthetic error payload and its end time stamped, and each of its
still-running child TaskHistory rows is failed too; a pending row not older
than the timeout is left exactly unchanged. -/
theorem orphan_detection_pass (db : DB) (sched? : Option (List SchedJob))
    (now pt rt : Int) (i : Nat) (r : FlowHistoryRow)
    (hr : db.flow_histories[i]? = some r) (hpend : r.status = "pending") :
    ((r.created_at < now - pt → job_alive sched? r.flow_id now = false →
       (check_orphaned_jobs db sched? now pt rt).flow_histories[i]? =
         some { r with status := "failed", end_time := some now, output_data := some (Payload.orphanPending now) }) ∧
     (now - pt ≤ r.created_at →
       (check_orphaned_jobs db sched? now pt rt).flow_histories[i]? = some r) ∧
     (∀ (j : Nat) (t : TaskHistoryRow), db.task_histories[j]? = some t →
        t.flow_history_id = r.id → t.status = "running" →
        r.created_at < now - pt → job_alive sched? r.flow_id now = false →
        (check_orphaned_jobs db sched? now pt rt).task_histories[j]? =
          some { t with status := "failed", end_time := some now })) := by
  refine ⟨?_, ?_, ?_⟩
  · intro hold hjob
    have hplost : pendingLost r sched? now pt = true := by
      simp [pendingLost, hpend, hold, hjob]
    simp only [check_orphaned_jobs, orphan_step_tasks, orphan_step_running,
      orphan_step_pending]
    rw [List.getElem?_map, List.getElem?_map, hr]
    simp only [Option.map_some']
    rw [orphanPendingMark_lost sched? now pt r hplost]
    rfl
  · intro hyoung
    have hplost : pendingLost r sched? now pt = false := by
      simp only [pendingLost, Bool.and_eq_false_iff]
      left
      right
      simp only [decide_eq_false_iff_not, not_lt]
      omega
    simp only [check_orphaned_jobs, orphan_step_tasks, orphan_step_running,
      orphan_step_pending]
    rw [List.getElem?_map, List.getElem?_map, hr]
    simp only [Option.map_some']
    rw [orphanPendingMark_keep sched? now pt r hplost,
      orphanRunningMark_skip _ now rt r (by rw [hpend]; rfl)]
  · intro j t htj hlink htrun hold hjob
    have hplost : pendingLost r sched? now pt = true := by
      simp [pendingLost, hpend, hold, hjob]
    have hmemr : r ∈ db.flow_histories := List.getElem?_mem hr
    have hlost : r.id ∈ (db.flow_histories.filter
        (fun x => pendingLost x sched? now pt)).map (fun x => x.id) :=
      List.mem_map.mpr ⟨r, List.mem_filter.mpr ⟨hmemr, hplost⟩, rfl⟩
    have hcont : (((db.flow_histories.filter
        (fun x => pendingLost x sched? now pt)).map (fun x => x.id)).contains
          t.flow_history_id) = true := by
      rw [hlink]
      exact List.elem_eq_true_of_mem hlost
    simp only [check_orphaned_jobs, orphan_step_tasks, orphan_step_running,
      orphan_step_pending]
    rw [List.getElem?_map, List.getElem?_map, htj]
    simp only [Option.map_some']
    rw [orphanTaskMark_hit _ now t hcont (by rw [htrun]; rfl)]
    rfl


/-- Witness for the orphan-detection theorem on a concrete store: the
timed-out pending row (and its running child) fail, the young pending row
is untouched. -/
theorem orphan_detection_pass_witness :
    (dbOrph.flow_histories[0]? = some orphOldRow ∧
     orphOldRow.status = "pending" ∧
     orphOldRow.created_at < 100 - 10 ∧
     job_alive (some []) orphOldRow.flow_id 100 = false ∧
     (check_orphaned_jobs dbOrph (some []) 100 10 1000).flow_histories[0]? =
       some { orphOldRow with status := "failed", end_time := some 100, output_data := some (Payload.orphanPending 100) } ∧
     (check_orphaned_jobs dbOrph (some []) 100 10 1000).task_histories[0]? =
       some { orphChildTask with status := "failed", end_time := some 100 }) ∧
    (dbOrph.flow_histories[1]? = some orphYoungRow ∧
     100 - 10 ≤ orphYoungRow.created_at ∧
     (check_orphaned_jobs dbOrph (some []) 100 10 1000).flow_histories[1]? =
       some orphYoungRow) :=
  ⟨⟨rfl, rfl, by simp [orphOldRow], rfl,
    (orphan_detection_pass dbOrph (some []) 100 10 1000 0 orphOldRow rfl rfl).1
      (by simp [orphOldRow]) rfl,
    (orphan_detection_pass dbOrph (some []) 100 10 1000 0 orphOldRow rfl rfl).2.2
      0 orphChildTask rfl rfl rfl (by simp [orphOldRow]) rfl⟩,
   ⟨rfl, by simp [orphYoungRow],
    (orphan_detection_pass dbOrph (some []) 100 10 1000 1 orphYoungRow rfl rfl).2.1
      (by simp [orphYoungRow])⟩⟩

end Flowy
